import Mathlib

/- Verification of the credit-account ledger engine of the ApiRestFinance
   repository (Go, gorm/Postgres).

   Modelling conventions:
   * Go float64 money amounts and rates are modelled as exact rationals.
   * Go time.Time values are modelled as a civil (year, month, day) triple
     plus a rational fraction of a day; comparisons, subtraction and
     AddDate go through the absolute day count, exactly as Go normalises
     civil fields into an absolute time.
   * math.Pow with a fractional exponent is modelled by an abstract
     parameter fpow (the code and the specification apply it to the same
     arguments); math.Pow with a natural-number exponent is the monoid
     power.
   * A gorm db.Transaction is all-or-nothing: the callback either returns
     a new database state (commit) or an error, in which case the caller
     keeps the unchanged prior state (rollback).  -/

namespace ApiRest

/-- Transaction types (enums.TransactionType): Purchase = "PURCHASE" and
Payment = "PAYMENT" are declared under src; InterestAccrual and
LateFeeApplied are used by the repository layer (their string values are
not declared under src). -/
inductive TransactionType where
  | purchase
  | payment
  | interestAccrual
  | lateFeeApplied
deriving DecidableEq, Repr

/-- Interest types (enums.InterestType): NOMINAL or EFFECTIVE. -/
inductive InterestType where
  | nominal
  | effective
deriving DecidableEq, Repr

/-- Credit types (enums.CreditType): SHORT_TERM or LONG_TERM. -/
inductive CreditType where
  | shortTerm
  | longTerm
deriving DecidableEq, Repr

/-- Installment status (enums.InstallmentStatus): PENDING, PAID, OVERDUE. -/
inductive InstallmentStatus where
  | pending
  | paid
  | overdue
deriving DecidableEq, Repr

/-- Recipient of a transaction (enums.RolClient / enums.RolEstablishment;
unspecified models the Go zero value of a literal that omits the field). -/
inductive RecipientType where
  | rolClient
  | rolEstablishment
  | unspecified
deriving DecidableEq, Repr

/-- Cumulative days before month m (1..12) in a non-leap year. -/
def daysBeforeMonth (m : Int) : Int :=
  if m ≤ 1 then 0
  else if m = 2 then 31
  else if m = 3 then 59
  else if m = 4 then 90
  else if m = 5 then 120
  else if m = 6 then 151
  else if m = 7 then 181
  else if m = 8 then 212
  else if m = 9 then 243
  else if m = 10 then 273
  else if m = 11 then 304
  else 334

/-- Leap-year test of the proleptic Gregorian calendar (as in the Go time
package). -/
def isLeapYear (y : Int) : Bool :=
  y % 4 = 0 && (y % 100 ≠ 0 || y % 400 = 0)

/-- Absolute day count of a civil date: day 0 is January 1 of year 1, the
epoch of the Go time package.  Out-of-range months roll into adjacent years
and out-of-range days roll into adjacent months, exactly as time.Date
normalises its arguments. -/
def daysFromCivil (y m d : Int) : Int :=
  let y1 := y + (m - 1).fdiv 12
  let m1 := (m - 1).fmod 12 + 1
  365 * (y1 - 1) + (y1 - 1).fdiv 4 - (y1 - 1).fdiv 100 + (y1 - 1).fdiv 400
    + daysBeforeMonth m1 + (if 2 < m1 ∧ isLeapYear y1 then 1 else 0) + (d - 1)

/-- Inverse of daysFromCivil: the normalised civil date of an absolute day
count (standard 400-year-cycle algorithm).  719162 is the day count of
1970-01-01. -/
def civilFromDays (n : Int) : Int × Int × Int :=
  let z := n - 719162 + 719468
  let era := z.fdiv 146097
  let doe := z.fmod 146097
  let yoe := (doe - doe.fdiv 1460 + doe.fdiv 36524 - doe.fdiv 146096).fdiv 365
  let y0 := yoe + era * 400
  let doy := doe - (365 * yoe + yoe.fdiv 4 - yoe.fdiv 100)
  let mp := (5 * doy + 2).fdiv 153
  let d := doy - (153 * mp + 2).fdiv 5 + 1
  let m := mp + (if mp < 10 then 3 else -9)
  (y0 + (if m ≤ 2 then 1 else 0), m, d)

/-- A Go time.Time: civil fields plus the time of day as a fraction of a
day. The fields need not be normalised; all comparisons go through the
absolute day count. -/
structure GoTime where
  year : Int
  month : Int
  day : Int
  frac : ℚ
deriving DecidableEq, Repr

/-- Absolute time of a GoTime, in days since the epoch. -/
def GoTime.abs (t : GoTime) : ℚ :=
  (daysFromCivil t.year t.month t.day : ℚ) + t.frac

/-- Go t.Before(u). -/
def GoTime.Before (t u : GoTime) : Prop := t.abs < u.abs

/-- Go t.After(u). -/
def GoTime.After (t u : GoTime) : Prop := u.abs < t.abs

/-- Go t.Sub(u) expressed in days (the sources always divide .Hours() by
24). -/
def GoTime.Sub (t u : GoTime) : ℚ := t.abs - u.abs

/-- Go t.AddDate(years, months, days): adds to the civil fields, which
then normalise through the absolute day count. -/
def GoTime.AddDate (t : GoTime) (y m d : Int) : GoTime :=
  ⟨t.year + y, t.month + m, t.day + d, t.frac⟩

/-- Normalised form of a GoTime (year/month/day within range). -/
def GoTime.normalize (t : GoTime) : GoTime :=
  let c := civilFromDays (daysFromCivil t.year t.month t.day)
  ⟨c.1, c.2.1, c.2.2, t.frac⟩

/-- Go t.Year(). -/
def GoTime.Year (t : GoTime) : Int := t.normalize.year

/-- Go t.Month(). -/
def GoTime.Month (t : GoTime) : Int := t.normalize.month

/-- Go t.Day(). -/
def GoTime.Day (t : GoTime) : Int := t.normalize.day

/-- Go t.IsZero(): the zero time.Time is midnight, January 1, year 1. -/
def GoTime.IsZero (t : GoTime) : Bool := t.abs == 0

/-- The Go int(x) conversion of a float64: truncation toward zero. -/
def goTrunc (q : ℚ) : Int := if 0 ≤ q then ⌊q⌋ else ⌈q⌉

/-- entities.CreditAccount (the fields relevant to the ledger engine). -/
structure CreditAccount where
  id : Nat
  clientID : Nat
  establishmentID : Nat
  creditLimit : ℚ
  currentBalance : ℚ
  monthlyDueDate : Int
  interestRate : ℚ
  interestType : InterestType
  creditType : CreditType
  gracePeriod : Int
  isBlocked : Bool
  lastInterestAccrualDate : GoTime
  lateFeePercentage : ℚ
deriving DecidableEq, Repr

/-- entities.Transaction (immutable ledger entry). TransactionDate and
CreatedAt coincide: both are time.Now() of the inserting call. -/
structure Transaction where
  creditAccountID : Nat
  recipientType : RecipientType
  recipientID : Nat
  transactionType : TransactionType
  amount : ℚ
  description : String
  transactionDate : GoTime
deriving DecidableEq, Repr

/-- entities.Installment. -/
structure Installment where
  creditAccountID : Nat
  dueDate : GoTime
  amount : ℚ
  status : InstallmentStatus
deriving DecidableEq, Repr

/-- entities.CreditAccountHistory. -/
structure CreditAccountHistory where
  creditAccountID : Nat
  transactionDate : GoTime
  transactionType : TransactionType
  amount : ℚ
  balance : ℚ
  description : String
deriving DecidableEq, Repr

/-- Persistent state owned by one credit account: the account row, its
transactions, its installments and its history records, in insertion
order. -/
structure DBState where
  account : CreditAccount
  transactions : List Transaction
  installments : List Installment
  history : List CreditAccountHistory
deriving DecidableEq, Repr

/-- Typed engine errors (spec taxonomy §7); each constructor stands for
the error value returned at the corresponding source line. -/
inductive EngineError where
  | accountBlocked
  | creditLimitExceeded
  | paymentExceedsBalance
  | overdueBalanceBlocksPurchase
  | invalidInput
  | invalidCreditType
  | stepFailed (step : String)
deriving DecidableEq, Repr

instance {ε α : Type} [DecidableEq ε] [DecidableEq α] : DecidableEq (Except ε α) :=
  fun x y =>
    match x, y with
    | .error a, .error b =>
      match decEq a b with
      | isTrue h => isTrue (by rw [h])
      | isFalse h => isFalse (fun hh => h (Except.error.inj hh))
    | .ok a, .ok b =>
      match decEq a b with
      | isTrue h => isTrue (by rw [h])
      | isFalse h => isFalse (fun hh => h (Except.ok.inj hh))
    | .error _, .ok _ => isFalse (fun hh => Except.noConfusion hh)
    | .ok _, .error _ => isFalse (fun hh => Except.noConfusion hh)

/-- creditAccountRepository.ProcessPurchase
(internal/repository/credit_account_repository.go lines 428-481): inside
one gorm transaction, fail if the account is blocked, fail if
balance+amount exceeds the limit, otherwise insert a PURCHASE transaction,
add the amount to the balance and insert a history record. -/
def repoProcessPurchase (now : GoTime) (amount : ℚ) (description : String)
    (st : DBState) : Except EngineError DBState :=
  let acct := st.account
  if acct.isBlocked then Except.error EngineError.accountBlocked
  else if acct.creditLimit < acct.currentBalance + amount then
    Except.error EngineError.creditLimitExceeded
  else
    let txn : Transaction :=
      { creditAccountID := acct.id
        recipientType := RecipientType.rolClient
        recipientID := acct.clientID
        transactionType := TransactionType.purchase
        amount := amount
        description := description
        transactionDate := now }
    let acct1 := { acct with currentBalance := acct.currentBalance + amount }
    let hist : CreditAccountHistory :=
      { creditAccountID := acct.id
        transactionDate := now
        transactionType := TransactionType.purchase
        amount := amount
        balance := acct1.currentBalance
        description := description }
    Except.ok { st with account := acct1,
                        transactions := st.transactions ++ [txn],
                        history := st.history ++ [hist] }

/-- creditAccountRepository.ProcessPayment
(internal/repository/credit_account_repository.go lines 483-539): inside
one gorm transaction, fail if the amount exceeds the current balance,
otherwise insert a PAYMENT transaction, subtract the amount, insert a
history record, and clear the blocked flag when the account was blocked
and the new balance is ≤ 0. -/
def repoProcessPayment (now : GoTime) (amount : ℚ) (description : String)
    (st : DBState) : Except EngineError DBState :=
  let acct := st.account
  if acct.currentBalance < amount then Except.error EngineError.paymentExceedsBalance
  else
    let txn : Transaction :=
      { creditAccountID := acct.id
        recipientType := RecipientType.rolEstablishment
        recipientID := acct.establishmentID
        transactionType := TransactionType.payment
        amount := amount
        description := description
        transactionDate := now }
    let balance1 := acct.currentBalance - amount
    let hist : CreditAccountHistory :=
      { creditAccountID := acct.id
        transactionDate := now
        transactionType := TransactionType.payment
        amount := -amount
        balance := balance1
        description := description }
    let blocked1 := if acct.isBlocked ∧ balance1 ≤ 0 then false else acct.isBlocked
    Except.ok { st with account := { acct with currentBalance := balance1,
                                               isBlocked := blocked1 },
                        transactions := st.transactions ++ [txn],
                        history := st.history ++ [hist] }

/-- One ledger call of claim C1. -/
inductive LedgerOp where
  | purchaseOp (amount : ℚ) (description : String)
  | paymentOp (amount : ℚ) (description : String)
deriving DecidableEq, Repr

/-- Amount carried by a ledger call. -/
def LedgerOp.amount : LedgerOp → ℚ
  | .purchaseOp a _ => a
  | .paymentOp a _ => a

/-- Dispatch one ledger call to the repository processor. -/
def applyOp (now : GoTime) (st : DBState) : LedgerOp → Except EngineError DBState
  | .purchaseOp a d => repoProcessPurchase now a d st
  | .paymentOp a d => repoProcessPayment now a d st

/-- Run a sequence of ledger calls, stopping at the first error: the
sequence is successful when the result is ok. -/
def runOps (now : GoTime) : DBState → List LedgerOp → Except EngineError DBState
  | st, [] => Except.ok st
  | st, op :: rest =>
    match applyOp now st op with
    | Except.ok st1 => runOps now st1 rest
    | Except.error e => Except.error e

/-- Charge predicate of the reconciliation invariant: PURCHASE, interest
and late-fee amounts count positively. -/
def isCharge : TransactionType → Bool
  | .purchase => true
  | .interestAccrual => true
  | .lateFeeApplied => true
  | .payment => false

/-- Sum of the posted purchase, fee and interest amounts of a transaction
list. -/
def chargeSum (ts : List Transaction) : ℚ :=
  ((ts.filter fun t => isCharge t.transactionType).map Transaction.amount).sum

/-- Sum of the posted payment amounts of a transaction list. -/
def paymentSum (ts : List Transaction) : ℚ :=
  ((ts.filter fun t => t.transactionType == TransactionType.payment).map
    Transaction.amount).sum

lemma chargeSum_append (ts : List Transaction) (t : Transaction) :
    chargeSum (ts ++ [t]) =
      chargeSum ts + (if isCharge t.transactionType then t.amount else 0) := by
  cases h : isCharge t.transactionType <;>
    simp [chargeSum, List.filter_append, h]

lemma paymentSum_append (ts : List Transaction) (t : Transaction) :
    paymentSum (ts ++ [t]) =
      paymentSum ts +
        (if t.transactionType = TransactionType.payment then t.amount else 0) := by
  by_cases h : t.transactionType = TransactionType.payment <;>
    simp [paymentSum, List.filter_append, h]

/-- Effect of one successful ledger call: the balance still reconciles
with the transaction list, stays within [0, creditLimit], and the credit
limit is unchanged. -/
lemma applyOp_preserves (now : GoTime) (st st1 : DBState) (op : LedgerOp)
    (hv0 : 0 ≤ st.account.currentBalance)
    (hv1 : st.account.currentBalance ≤ st.account.creditLimit)
    (hrec : st.account.currentBalance = chargeSum st.transactions - paymentSum st.transactions)
    (hpos : 0 < op.amount)
    (h : applyOp now st op = Except.ok st1) :
    0 ≤ st1.account.currentBalance ∧
      st1.account.currentBalance ≤ st1.account.creditLimit ∧
      st1.account.currentBalance = chargeSum st1.transactions - paymentSum st1.transactions ∧
      st1.account.creditLimit = st.account.creditLimit := by
  cases op with
  | purchaseOp a d =>
    simp only [applyOp, repoProcessPurchase] at h
    split at h
    · exact absurd h (by simp)
    · split at h
      · exact absurd h (by simp)
      · rename_i hblock hlim
        rw [Except.ok.injEq] at h
        subst h
        simp only [LedgerOp.amount] at hpos
        push_neg at hlim
        refine ⟨?_, ?_, ?_, rfl⟩
        · dsimp only
          linarith
        · dsimp only
          linarith
        · dsimp only
          simp only [chargeSum_append, paymentSum_append, isCharge]
          simp [hrec]
          ring
  | paymentOp a d =>
    simp only [applyOp, repoProcessPayment] at h
    split at h
    · exact absurd h (by simp)
    · rename_i hexceed
      rw [Except.ok.injEq] at h
      subst h
      simp only [LedgerOp.amount] at hpos
      push_neg at hexceed
      refine ⟨?_, ?_, ?_, rfl⟩
      · dsimp only
        linarith
      · dsimp only
        linarith
      · dsimp only
        simp only [chargeSum_append, paymentSum_append, isCharge]
        simp [hrec]
        ring

/-- C1. For every account and every finite sequence of successful
ProcessPurchase / ProcessPayment calls starting from a valid account
(0 ≤ balance ≤ creditLimit) whose balance reconciles with its posted
transactions (as it does at account creation, where both are zero), with
the spec precondition amount > 0 on each call: the final balance equals
the sum of the posted purchase, fee and interest amounts minus the sum of
the posted payment amounts, and satisfies 0 ≤ balance ≤ creditLimit. -/
theorem ledger_reconciliation_and_limit_invariant (now : GoTime)
    (ops : List LedgerOp) (st st1 : DBState)
    (hv0 : 0 ≤ st.account.currentBalance)
    (hv1 : st.account.currentBalance ≤ st.account.creditLimit)
    (hrec : st.account.currentBalance = chargeSum st.transactions - paymentSum st.transactions)
    (hpos : ∀ op ∈ ops, 0 < op.amount)
    (hrun : runOps now st ops = Except.ok st1) :
    st1.account.currentBalance = chargeSum st1.transactions - paymentSum st1.transactions ∧
      0 ≤ st1.account.currentBalance ∧
      st1.account.currentBalance ≤ st1.account.creditLimit := by
  induction ops generalizing st with
  | nil =>
    simp only [runOps, Except.ok.injEq] at hrun
    subst hrun
    exact ⟨hrec, hv0, hv1⟩
  | cons op rest ih =>
    simp only [runOps] at hrun
    cases h : applyOp now st op with
    | ok stm =>
      rw [h] at hrun
      obtain ⟨k0, k1, k2, _⟩ :=
        applyOp_preserves now st stm op hv0 hv1 hrec (hpos op (by simp)) h
      exact ih stm k0 k1 k2 (fun o ho => hpos o (by simp [ho])) hrun
    | error e =>
      rw [h] at hrun
      exact absurd hrun (by simp)

/-- Reference instant used by the concrete evaluations below. -/
def tNow : GoTime := ⟨2024, 5, 20, 0⟩

/-- Fresh valid account used by the concrete evaluations: created with
zero balance and no transactions. -/
def freshAccount : CreditAccount :=
  { id := 42
    clientID := 7
    establishmentID := 3
    creditLimit := 1000
    currentBalance := 0
    monthlyDueDate := 15
    interestRate := 12
    interestType := InterestType.nominal
    creditType := CreditType.shortTerm
    gracePeriod := 0
    isBlocked := false
    lastInterestAccrualDate := ⟨2024, 5, 1, 0⟩
    lateFeePercentage := 5 }

/-- Fresh database state for the account above. -/
def freshDB : DBState :=
  { account := freshAccount
    transactions := []
    installments := []
    history := [] }

/-- Witness for C1: a concrete successful purchase-then-payment sequence
from the fresh account satisfies every hypothesis, and the conclusion
holds at its concrete final state. -/
theorem ledger_reconciliation_and_limit_invariant_witness :
    (match runOps tNow freshDB
        [LedgerOp.purchaseOp 50 "p", LedgerOp.paymentOp 20 "q"] with
      | Except.ok st1 =>
          st1.account.currentBalance = chargeSum st1.transactions - paymentSum st1.transactions ∧
            0 ≤ st1.account.currentBalance ∧
            st1.account.currentBalance ≤ st1.account.creditLimit
      | Except.error _ => False) := by
  have h : runOps tNow freshDB
      [LedgerOp.purchaseOp 50 "p", LedgerOp.paymentOp 20 "q"] =
      Except.ok { account := { freshAccount with currentBalance := 30 },
                  transactions :=
                    [{ creditAccountID := 42, recipientType := RecipientType.rolClient,
                       recipientID := 7, transactionType := TransactionType.purchase,
                       amount := 50, description := "p", transactionDate := tNow },
                     { creditAccountID := 42, recipientType := RecipientType.rolEstablishment,
                       recipientID := 3, transactionType := TransactionType.payment,
                       amount := 20, description := "q", transactionDate := tNow }],
                  installments := [],
                  history :=
                    [{ creditAccountID := 42, transactionDate := tNow,
                       transactionType := TransactionType.purchase, amount := 50,
                       balance := 50, description := "p" },
                     { creditAccountID := 42, transactionDate := tNow,
                       transactionType := TransactionType.payment, amount := -20,
                       balance := 30, description := "q" }] } := by
    norm_num [runOps, applyOp, repoProcessPurchase, repoProcessPayment,
      freshDB, freshAccount]
  rw [h]
  exact ledger_reconciliation_and_limit_invariant tNow
    [LedgerOp.purchaseOp 50 "p", LedgerOp.paymentOp 20 "q"] freshDB _
    (by norm_num [freshDB, freshAccount])
    (by norm_num [freshDB, freshAccount])
    (by norm_num [freshDB, freshAccount, chargeSum, paymentSum])
    (by norm_num [LedgerOp.amount]) h

instance (t u : GoTime) : Decidable (t.Before u) :=
  inferInstanceAs (Decidable (t.abs < u.abs))

instance (t u : GoTime) : Decidable (t.After u) :=
  inferInstanceAs (Decidable (u.abs < t.abs))

/-- What the caller sees of a gorm db.Transaction: the new state on commit, the
unchanged state plus the error on rollback. -/
def gormRun (f : DBState → Except EngineError DBState) (st : DBState) :
    DBState × Option EngineError :=
  match f st with
  | Except.ok st1 => (st1, none)
  | Except.error e => (st, some e)

/-- C9 (amended): for a NON-BLOCKED account, a purchase with
balance + amount > creditLimit fails with CreditLimitExceeded and the
whole state (balance, blocked flag, transactions, installments) is
exactly what it was before the call. -/
theorem purchase_over_limit_fails_unchanged (now : GoTime) (amount : ℚ)
    (description : String) (st : DBState)
    (hnb : st.account.isBlocked = false)
    (hex : st.account.creditLimit < st.account.currentBalance + amount) :
    gormRun (repoProcessPurchase now amount description) st =
      (st, some EngineError.creditLimitExceeded) := by
  simp [gormRun, repoProcessPurchase, hnb, hex]

/-- Witness for the amended C9: the fresh account (limit 1000, balance 0)
with a 2000 purchase. -/
theorem purchase_over_limit_fails_unchanged_witness :
    gormRun (repoProcessPurchase tNow 2000 "big") freshDB =
      (freshDB, some EngineError.creditLimitExceeded) :=
  purchase_over_limit_fails_unchanged tNow 2000 "big" freshDB rfl
    (by norm_num [freshDB, freshAccount])

/-- Blocked account used to refute C9 as literally stated. -/
def blockedAccount : CreditAccount :=
  { freshAccount with id := 43, creditLimit := 100, isBlocked := true }

/-- Database state of the blocked account. -/
def blockedDB : DBState :=
  { account := blockedAccount
    transactions := []
    installments := []
    history := [] }

/-- Counterexample to C9 as stated: a blocked account with
balance + amount > creditLimit fails with the AccountBlocked error, not
with CreditLimitExceeded. -/
theorem purchase_over_limit_blocked_counterexample :
    blockedDB.account.creditLimit <
        blockedDB.account.currentBalance + 200 ∧
      gormRun (repoProcessPurchase tNow 200 "p") blockedDB =
        (blockedDB, some EngineError.accountBlocked) ∧
      EngineError.accountBlocked ≠ EngineError.creditLimitExceeded := by
  refine ⟨by norm_num [blockedDB, blockedAccount, freshAccount], ?_, by simp⟩
  simp [gormRun, repoProcessPurchase, blockedDB, blockedAccount]

/-- isAccountOverdue (internal/repository/credit_account_repository.go
lines 644-649 and internal/service/purchase_service.go lines 123-127):
today is after the due date of this month and the balance is positive. -/
def isAccountOverdue (now : GoTime) (acct : CreditAccount) : Bool :=
  let dueDate : GoTime := ⟨now.Year, now.Month, acct.monthlyDueDate, 0⟩
  decide (GoTime.After now dueDate) && decide (0 < acct.currentBalance)

/-- creditAccountRepository.GetOverdueBalance
(internal/repository/credit_account_repository.go lines 622-641): 0 when
the account is not overdue, otherwise the full current balance. -/
def getOverdueBalance (now : GoTime) (st : DBState) : ℚ :=
  if isAccountOverdue now st.account then st.account.currentBalance else 0

/-- creditAccountService.ProcessPurchase (src/unnamed/part_023 lines
213-226): refuse when the overdue balance of the client is positive, otherwise
delegate to the repository processor. -/
def svcProcessPurchase (now : GoTime) (amount : ℚ) (description : String)
    (st : DBState) : Except EngineError DBState :=
  if 0 < getOverdueBalance now st then
    Except.error EngineError.overdueBalanceBlocksPurchase
  else repoProcessPurchase now amount description st

/-- C3. For every account whose current overdue balance is positive,
posting a purchase through the service fails with the
OverdueBalanceBlocksPurchase error and no transaction is created: the
state after the call is exactly the state before it. -/
theorem overdue_balance_blocks_purchase (now : GoTime) (amount : ℚ)
    (description : String) (st : DBState)
    (h : 0 < getOverdueBalance now st) :
    gormRun (svcProcessPurchase now amount description) st =
      (st, some EngineError.overdueBalanceBlocksPurchase) := by
  simp [gormRun, svcProcessPurchase, h]

/-- Account that is overdue at tNow: due day 5, positive balance. -/
def overdueAccount : CreditAccount :=
  { freshAccount with id := 44, currentBalance := 10, monthlyDueDate := 5 }

/-- Database state of the overdue account. -/
def overdueDB : DBState :=
  { account := overdueAccount
    transactions := []
    installments := []
    history := [] }

/-- Witness for C3: at tNow = May 20 the account with due day 5 and
balance 10 has overdue balance 10 > 0 and the purchase is refused. -/
theorem overdue_balance_blocks_purchase_witness :
    gormRun (svcProcessPurchase tNow 50 "p") overdueDB =
      (overdueDB, some EngineError.overdueBalanceBlocksPurchase) :=
  overdue_balance_blocks_purchase tNow 50 "p" overdueDB (by
    have h1 : GoTime.Year tNow = 2024 := by decide
    have h2 : GoTime.Month tNow = 5 := by decide
    have hov : isAccountOverdue tNow overdueAccount = true := by
      simp only [isAccountOverdue, GoTime.After, Bool.and_eq_true,
        decide_eq_true_eq, overdueAccount, freshAccount, h1, h2]
      constructor
      · show GoTime.abs tNow > GoTime.abs ⟨2024, 5, 5, 0⟩
        simp only [GoTime.abs, tNow]
        have hd : daysFromCivil 2024 5 5 < daysFromCivil 2024 5 20 := by decide
        norm_num
        exact_mod_cast hd
      · norm_num
    simp only [getOverdueBalance, overdueDB, hov, if_true]
    norm_num [overdueAccount, freshAccount])

/-- installmentRepository.GetOverdueInstallments (src/unnamed/part_028
lines 65-72): installments with due_date < now and status OVERDUE. -/
def getOverdueInstallments (now : GoTime) (insts : List Installment) :
    List Installment :=
  insts.filter fun i =>
    decide (i.dueDate.abs < now.abs) && (i.status == InstallmentStatus.overdue)

/-- creditAccountRepository.CalculateInterest
(internal/repository/credit_account_repository.go lines 295-349).
SHORT_TERM: nominal or effective interest on the balance over the days
since the last accrual.  LONG_TERM: per-installment interest over the
OVERDUE installments, on the days since each due date. -/
def repoCalculateInterest (fpow : ℚ → ℚ → ℚ) (now : GoTime)
    (insts : List Installment) (acct : CreditAccount) : ℚ :=
  if acct.currentBalance = 0 then 0
  else
    let daysSinceLastAccrual := now.Sub acct.lastInterestAccrualDate
    match acct.creditType with
    | CreditType.shortTerm =>
      match acct.interestType with
      | InterestType.nominal =>
        acct.currentBalance * (acct.interestRate / 100) * (daysSinceLastAccrual / 365)
      | InterestType.effective =>
        acct.currentBalance *
          (fpow (1 + acct.interestRate / 100) (daysSinceLastAccrual / 365) - 1)
    | CreditType.longTerm =>
      (getOverdueInstallments now insts).foldl
        (fun totalInterest i =>
          let daysOverdue := goTrunc (now.Sub i.dueDate)
          if 0 < daysOverdue then
            match acct.interestType with
            | InterestType.nominal =>
              totalInterest +
                i.amount * (acct.interestRate / 36500) * (daysOverdue : ℚ)
            | InterestType.effective =>
              let dailyRate := fpow (1 + acct.interestRate / 100) (1 / 365) - 1
              totalInterest +
                (i.amount * (1 + dailyRate) ^ daysOverdue.toNat - i.amount)
          else totalInterest) 0

/-- creditAccountRepository.ApplyInterest
(internal/repository/credit_account_repository.go lines 149-201): no-op
when the balance is zero or less than one month has passed since the last
accrual; otherwise post an INTEREST_ACCRUAL transaction, add the interest
to the balance, advance lastInterestAccrualDate and record history. -/
def applyInterest (fpow : ℚ → ℚ → ℚ) (now : GoTime) (st : DBState) :
    Except EngineError DBState :=
  let acct := st.account
  if acct.currentBalance = 0 ∨
      GoTime.Before now (acct.lastInterestAccrualDate.AddDate 0 1 0) then
    Except.ok st
  else
    let interest := repoCalculateInterest fpow now st.installments acct
    let txn : Transaction :=
      { creditAccountID := acct.id
        recipientType := RecipientType.rolClient
        recipientID := acct.clientID
        transactionType := TransactionType.interestAccrual
        amount := interest
        description := "Monthly Interest"
        transactionDate := now }
    let acct1 := { acct with currentBalance := acct.currentBalance + interest,
                             lastInterestAccrualDate := now }
    let hist : CreditAccountHistory :=
      { creditAccountID := acct.id
        transactionDate := now
        transactionType := TransactionType.interestAccrual
        amount := interest
        balance := acct1.currentBalance
        description := "Monthly Interest Accrued" }
    Except.ok { st with account := acct1,
                        transactions := st.transactions ++ [txn],
                        history := st.history ++ [hist] }

/-- C7. If ApplyInterest is invoked before one full month has elapsed
since lastInterestAccrualDate, it is a no-op: no INTEREST_ACCRUAL
transaction is posted and the balance and lastInterestAccrualDate are
unchanged — in particular a second invocation within the same period
produces zero interest. -/
theorem apply_interest_idempotent_within_month (fpow : ℚ → ℚ → ℚ)
    (now : GoTime) (st : DBState)
    (h : GoTime.Before now (st.account.lastInterestAccrualDate.AddDate 0 1 0)) :
    applyInterest fpow now st = Except.ok st := by
  simp only [applyInterest]
  rw [if_pos (Or.inr h)]

/-- Concrete stand-in for math.Pow used where the effective-rate branch is
not exercised. -/
def fpowZero : ℚ → ℚ → ℚ := fun _ _ => 0

/-- Witness for C7: at tNow = May 20, 2024 the fresh account, last
accrued on May 1, 2024, is left untouched. -/
theorem apply_interest_idempotent_within_month_witness :
    applyInterest fpowZero tNow freshDB = Except.ok freshDB :=
  apply_interest_idempotent_within_month fpowZero tNow freshDB (by
    show GoTime.abs tNow <
      GoTime.abs (GoTime.AddDate ⟨2024, 5, 1, 0⟩ 0 1 0)
    simp only [GoTime.abs, GoTime.AddDate, tNow]
    have hd : daysFromCivil 2024 5 20 < daysFromCivil 2024 (5 + 1) (1 + 0) := by
      decide
    norm_num
    exact_mod_cast hd)

/-- Single step of the long-term interest loop of
creditAccountService.CalculateInterest (src/unnamed/part_023 lines
283-300). -/
def pendingInterestStep (fpow : ℚ → ℚ → ℚ) (now : GoTime)
    (acct : CreditAccount) (interest : ℚ) (i : Installment) : ℚ :=
  if i.status = InstallmentStatus.pending then
    let daysUntilDueDate := i.dueDate.abs - now.abs
    if 0 < daysUntilDueDate then
      match acct.interestType with
      | InterestType.nominal =>
        interest + i.amount * (acct.interestRate / 100) * (daysUntilDueDate / 365)
      | InterestType.effective =>
        interest +
          i.amount * (fpow (1 + acct.interestRate / 100) (daysUntilDueDate / 365) - 1)
    else interest
  else interest

/-- Number of days in a month as computed by the service layer
(src/unnamed/part_023 lines 307-309): the day of day 0 of the following
month. -/
def daysInMonthGo (m y : Int) : Int := GoTime.Day ⟨y, m + 1, 0, 0⟩

/-- creditAccountService.CalculateInterest (src/unnamed/part_023 lines
254-304).  SHORT_TERM: balance interest once a full month has passed.
LONG_TERM: per-installment interest over the PENDING, not-yet-due
installments, on the span from today to each due date. -/
def svcCalculateInterest (fpow : ℚ → ℚ → ℚ) (now : GoTime)
    (insts : List Installment) (acct : CreditAccount) : ℚ :=
  match acct.creditType with
  | CreditType.shortTerm =>
    let daysSinceLastAccrual := now.Sub acct.lastInterestAccrualDate
    if (daysInMonthGo acct.lastInterestAccrualDate.Month
          acct.lastInterestAccrualDate.Year : ℚ) ≤ daysSinceLastAccrual then
      match acct.interestType with
      | InterestType.nominal =>
        acct.currentBalance * (acct.interestRate / 100) * (daysSinceLastAccrual / 365)
      | InterestType.effective =>
        acct.currentBalance *
          (fpow (1 + acct.interestRate / 100) (daysSinceLastAccrual / 365) - 1)
    else 0
  | CreditType.longTerm =>
    insts.foldl (pendingInterestStep fpow now acct) 0

/-- Interest contribution of one installment over the span
(dueDate - today), by the nominal or effective formula of the account. -/
def installmentTermInterest (fpow : ℚ → ℚ → ℚ) (now : GoTime)
    (acct : CreditAccount) (i : Installment) : ℚ :=
  match acct.interestType with
  | InterestType.nominal =>
    i.amount * (acct.interestRate / 100) * ((i.dueDate.abs - now.abs) / 365)
  | InterestType.effective =>
    i.amount * (fpow (1 + acct.interestRate / 100) ((i.dueDate.abs - now.abs) / 365) - 1)

/-- Specification form of claim C5: the sum of the per-installment
interest over exactly the installments that are PENDING and not yet
due. -/
def specPendingNotDueInterest (fpow : ℚ → ℚ → ℚ) (now : GoTime)
    (insts : List Installment) (acct : CreditAccount) : ℚ :=
  ((insts.filter fun i =>
      (i.status == InstallmentStatus.pending) && decide (now.abs < i.dueDate.abs)).map
    (installmentTermInterest fpow now acct)).sum

lemma pendingInterestStep_foldl (fpow : ℚ → ℚ → ℚ) (now : GoTime)
    (acct : CreditAccount) (l : List Installment) :
    ∀ a : ℚ, l.foldl (pendingInterestStep fpow now acct) a =
      a + specPendingNotDueInterest fpow now l acct := by
  induction l with
  | nil => intro a; simp [specPendingNotDueInterest]
  | cons i rest ih =>
    intro a
    rw [List.foldl_cons, ih]
    by_cases hp : i.status = InstallmentStatus.pending
    · by_cases hd : now.abs < i.dueDate.abs
      · have hb : ((i.status == InstallmentStatus.pending) &&
            decide (now.abs < i.dueDate.abs)) = true := by simp [hp, hd]
        have hd1 : 0 < i.dueDate.abs - now.abs := by linarith
        simp only [specPendingNotDueInterest, List.filter_cons, hb, if_true,
          List.map_cons, List.sum_cons, pendingInterestStep, if_pos hp,
          if_pos hd1]
        cases h : acct.interestType with
        | nominal => simp only [installmentTermInterest, h]; ring
        | effective => simp only [installmentTermInterest, h]; ring
      · have hb : ((i.status == InstallmentStatus.pending) &&
            decide (now.abs < i.dueDate.abs)) = false := by simp [hd]
        have hd1 : ¬ 0 < i.dueDate.abs - now.abs := by
          intro hc; exact hd (by linarith)
        simp [specPendingNotDueInterest, List.filter_cons, hb,
          pendingInterestStep, if_pos hp, if_neg hd1]
        exact fun hc => absurd hc hd
    · have hb : ((i.status == InstallmentStatus.pending) &&
          decide (now.abs < i.dueDate.abs)) = false := by simp [hp]
      simp [specPendingNotDueInterest, List.filter_cons, hb,
        pendingInterestStep, if_neg hp]

/-- C5. For every LONG_TERM account, the service CalculateInterest equals
the sum, over exactly the PENDING not-yet-due installments, of the
nominal/effective formula applied to the span (dueDate - today);
installments already overdue contribute nothing. -/
theorem svc_interest_over_pending_not_due (fpow : ℚ → ℚ → ℚ)
    (now : GoTime) (insts : List Installment) (acct : CreditAccount)
    (hct : acct.creditType = CreditType.longTerm) :
    svcCalculateInterest fpow now insts acct =
      specPendingNotDueInterest fpow now insts acct := by
  simp only [svcCalculateInterest, hct]
  rw [pendingInterestStep_foldl]
  ring

/-- Long-term nominal account (rate 36.5% so the nominal daily rate is
exactly 1/1000). -/
def acctLong : CreditAccount :=
  { freshAccount with
      id := 45
      creditType := CreditType.longTerm
      interestType := InterestType.nominal
      interestRate := 365 / 10
      currentBalance := 100 }

/-- Reference instant for the long-term interest evaluations. -/
def tMar : GoTime := ⟨2024, 3, 11, 0⟩

/-- Installment overdue by exactly 10 days at tMar. -/
def instOverdue : Installment :=
  { creditAccountID := 45, dueDate := ⟨2024, 3, 1, 0⟩, amount := 100,
    status := InstallmentStatus.overdue }

/-- Pending installment not yet due at tMar. -/
def instPending : Installment :=
  { creditAccountID := 45, dueDate := ⟨2024, 4, 15, 0⟩, amount := 50,
    status := InstallmentStatus.pending }

/-- Witness for C5: the equality holds at a concrete long-term account
with one pending installment. -/
theorem svc_interest_over_pending_not_due_witness :
    svcCalculateInterest fpowZero tMar [instPending] acctLong =
      specPendingNotDueInterest fpowZero tMar [instPending] acctLong :=
  svc_interest_over_pending_not_due fpowZero tMar [instPending] acctLong rfl

/-- Counterexample to C5 for the repository CalculateInterest (the
function ApplyInterest actually uses): on a LONG_TERM account whose only
installment is OVERDUE by 10 days, it returns 1, while the claimed
per-installment sum over PENDING not-yet-due installments is 0 — overdue
installments do contribute. -/
theorem repo_interest_counts_overdue_counterexample :
    repoCalculateInterest fpowZero tMar [instOverdue] acctLong = 1 ∧
      specPendingNotDueInterest fpowZero tMar [instOverdue] acctLong = 0 ∧
      repoCalculateInterest fpowZero tMar [instOverdue] acctLong ≠
        specPendingNotDueInterest fpowZero tMar [instOverdue] acctLong := by
  have hlt : GoTime.abs ⟨2024, 3, 1, 0⟩ < GoTime.abs tMar := by
    simp only [GoTime.abs, tMar]
    have hd : daysFromCivil 2024 3 1 < daysFromCivil 2024 3 11 := by decide
    norm_num
    exact_mod_cast hd
  have hsub : GoTime.Sub tMar ⟨2024, 3, 1, 0⟩ = 10 := by
    simp only [GoTime.Sub, GoTime.abs, tMar]
    have hd : daysFromCivil 2024 3 11 - daysFromCivil 2024 3 1 = 10 := by decide
    norm_num
    exact_mod_cast hd
  have hfilter : getOverdueInstallments tMar [instOverdue] = [instOverdue] := by
    simp [getOverdueInstallments, instOverdue, hlt]
  have hrepo : repoCalculateInterest fpowZero tMar [instOverdue] acctLong = 1 := by
    simp only [repoCalculateInterest, hfilter, acctLong, freshAccount]
    norm_num [instOverdue, hsub, goTrunc]
  have hspec : specPendingNotDueInterest fpowZero tMar [instOverdue] acctLong = 0 := by
    simp [specPendingNotDueInterest, instOverdue]
  refine ⟨hrepo, hspec, ?_⟩
  rw [hrepo, hspec]
  norm_num

/-- purchaseService.calculateNumberOfInstallments (src/unnamed/part_019
lines 195-208): a 12-month horizon minus the grace period, floored at
1. -/
def calculateNumberOfInstallments (acct : CreditAccount) : Int :=
  let creditDurationMonths : Int := 12
  let numInstallments := creditDurationMonths - acct.gracePeriod
  if numInstallments < 1 then 1 else numInstallments

/-- purchaseService.calculateInstallmentAmount (src/unnamed/part_019
lines 211-226): annuity formula at the nominal (rate/1200) or effective
((1+rate/100)^(1/12) - 1) periodic rate. -/
def calculateInstallmentAmount (fpow : ℚ → ℚ → ℚ) (acct : CreditAccount)
    (amount : ℚ) (numInstallments : Int) : ℚ :=
  let periodicInterestRate : ℚ :=
    match acct.interestType with
    | InterestType.nominal => acct.interestRate / 1200
    | InterestType.effective => fpow (1 + acct.interestRate / 100) (1 / 12) - 1
  amount * (periodicInterestRate *
      (1 + periodicInterestRate) ^ numInstallments.toNat) /
    ((1 + periodicInterestRate) ^ numInstallments.toNat - 1)

/-- purchaseService.calculateFirstInstallmentDueDate (src/unnamed/part_019
lines 229-237): today shifted by the grace period in months, snapped to
the due day of the account. -/
def calculateFirstInstallmentDueDate (now : GoTime) (acct : CreditAccount) :
    GoTime :=
  let firstDueDate := now.AddDate 0 acct.gracePeriod 0
  ⟨firstDueDate.Year, firstDueDate.Month, acct.monthlyDueDate, 0⟩

/-- purchaseService.createInstallments (src/unnamed/part_019 lines
174-192): the batch of PENDING installments created for a long-term
purchase, one month apart. -/
def createInstallments_p19 (fpow : ℚ → ℚ → ℚ) (now : GoTime)
    (acct : CreditAccount) (amount : ℚ) : List Installment :=
  let numInstallments := calculateNumberOfInstallments acct
  let installmentAmount := calculateInstallmentAmount fpow acct amount numInstallments
  let dueDate := calculateFirstInstallmentDueDate now acct
  (List.range numInstallments.toNat).map fun (i : Nat) =>
    { creditAccountID := acct.id
      dueDate := dueDate.AddDate 0 (Int.ofNat i) 0
      amount := installmentAmount
      status := InstallmentStatus.pending }

/-- calculateNextDueDate (internal/service/purchase_service.go lines
228-235): the due day of this month, or of the next month when it
already passed. -/
def calculateNextDueDate (now : GoTime) (monthlyDueDate : Int) : GoTime :=
  let dueDate : GoTime := ⟨now.Year, now.Month, monthlyDueDate, 0⟩
  if GoTime.Before dueDate now then dueDate.AddDate 0 1 0 else dueDate

/-- purchaseService.createInstallments (internal/service/purchase_service.go
lines 200-225): always 12 installments of purchaseAmount/12 each, one
month apart, starting at the next due date. -/
def svcCreateInstallments (now : GoTime) (acct : CreditAccount)
    (purchaseAmount : ℚ) : List Installment :=
  if acct.creditType ≠ CreditType.longTerm then []
  else
    let numInstallments : Nat := 12
    let installmentAmount := purchaseAmount / (numInstallments : ℚ)
    let firstDueDate := calculateNextDueDate now acct.monthlyDueDate
    (List.range numInstallments).map fun (i : Nat) =>
      { creditAccountID := acct.id
        dueDate := firstDueDate.AddDate 0 (Int.ofNat i) 0
        amount := installmentAmount
        status := InstallmentStatus.pending }

/-- Number of installments stated by claim C4: max(12 - gracePeriod, 1). -/
def specNumInstallments (gracePeriod : Int) : Int := max (12 - gracePeriod) 1

/-- Periodic rate stated by claim C4: r/12 as a fraction for NOMINAL
accounts (the annual rate field is a percentage, so (rate/100)/12) and
(1+r)^(1/12) - 1 for EFFECTIVE accounts. -/
def specPeriodicRate (fpow : ℚ → ℚ → ℚ) (acct : CreditAccount) : ℚ :=
  match acct.interestType with
  | InterestType.nominal => acct.interestRate / 100 / 12
  | InterestType.effective => fpow (1 + acct.interestRate / 100) (1 / 12) - 1

/-- Annuity formula stated by claim C4. -/
def specAnnuityAmount (principal i : ℚ) (n : ℕ) : ℚ :=
  principal * (i * (1 + i) ^ n) / ((1 + i) ^ n - 1)

/-- C4 (amended to the part_019 scheduler). For every LONG_TERM purchase
of principal P, the part_019 scheduler creates n = max(12 - g, 1)
installments, each of amount P * (i * (1+i)^n) / ((1+i)^n - 1) with the
periodic rate i of the claim. -/
theorem p19_scheduler_matches_annuity_formula (fpow : ℚ → ℚ → ℚ)
    (now : GoTime) (acct : CreditAccount) (P : ℚ)
    (_hct : acct.creditType = CreditType.longTerm) :
    (createInstallments_p19 fpow now acct P).length =
        (specNumInstallments acct.gracePeriod).toNat ∧
      ∀ inst ∈ createInstallments_p19 fpow now acct P,
        inst.amount = specAnnuityAmount P (specPeriodicRate fpow acct)
          (specNumInstallments acct.gracePeriod).toNat := by
  have hn : calculateNumberOfInstallments acct = specNumInstallments acct.gracePeriod := by
    simp only [calculateNumberOfInstallments, specNumInstallments]
    split <;> omega
  constructor
  · simp only [createInstallments_p19, List.length_map, List.length_range, hn]
  · intro inst hmem
    simp only [createInstallments_p19, List.mem_map] at hmem
    obtain ⟨i, _, rfl⟩ := hmem
    show calculateInstallmentAmount fpow acct P (calculateNumberOfInstallments acct) = _
    rw [hn]
    cases h : acct.interestType with
    | nominal =>
      simp only [calculateInstallmentAmount, specAnnuityAmount, specPeriodicRate, h]
      have hr : acct.interestRate / 100 / 12 = acct.interestRate / 1200 := by ring
      rw [hr]
    | effective =>
      simp only [calculateInstallmentAmount, specAnnuityAmount, specPeriodicRate, h]

/-- Long-term nominal account with a 2-month grace period. -/
def acctG2 : CreditAccount :=
  { freshAccount with
      id := 46
      creditType := CreditType.longTerm
      gracePeriod := 2 }

/-- Witness for the amended C4: the long-term account with grace period 2
at principal 1200. -/
theorem p19_scheduler_matches_annuity_formula_witness :
    (createInstallments_p19 fpowZero tNow acctG2 1200).length =
        (specNumInstallments acctG2.gracePeriod).toNat ∧
      ∀ inst ∈ createInstallments_p19 fpowZero tNow acctG2 1200,
        inst.amount = specAnnuityAmount 1200 (specPeriodicRate fpowZero acctG2)
          (specNumInstallments acctG2.gracePeriod).toNat :=
  p19_scheduler_matches_annuity_formula fpowZero tNow acctG2 1200 rfl

lemma svcCreateInstallments_length (now : GoTime) (acct : CreditAccount)
    (amount : ℚ) (h : acct.creditType = CreditType.longTerm) :
    (svcCreateInstallments now acct amount).length = 12 := by
  simp only [svcCreateInstallments, h, ne_eq, not_true_eq_false, if_false,
    List.length_map, List.length_range]

/-- Counterexample to C4 as stated: the purchase-service scheduler of
internal/service/purchase_service.go creates 12 installments on the same
account, not max(12 - 2, 1) = 10 (and each of amount P/12, not the
annuity amount). -/
theorem svc_scheduler_counterexample :
    (svcCreateInstallments tNow acctG2 1200).length = 12 ∧
      (specNumInstallments acctG2.gracePeriod).toNat = 10 ∧
      (12 : ℕ) ≠ 10 := by
  exact ⟨svcCreateInstallments_length tNow acctG2 1200 rfl, by decide, by decide⟩

/-- SHORT_TERM branch of CalculateDueDate
(internal/service/credit_account_service.go lines 283-292 and
internal/service/purchase_service.go lines 238-248): the due day of next
month, rolling into January of the next year after December. -/
def shortTermNextDueDate (now : GoTime) (monthlyDueDate : Int) : GoTime :=
  let nextMonth := now.Month + 1
  let nextYear := now.Year
  if 12 < nextMonth then ⟨nextYear + 1, 1, monthlyDueDate, 0⟩
  else ⟨nextYear, nextMonth, monthlyDueDate, 0⟩

/-- creditAccountService.CalculateDueDate
(internal/service/credit_account_service.go lines 283-312): SHORT_TERM
accounts get the due day of the next month; LONG_TERM accounts get the first
pending installment due after today, with the same fallback. -/
def calculateDueDate (now : GoTime) (acct : CreditAccount)
    (insts : List Installment) : Except EngineError GoTime :=
  match acct.creditType with
  | CreditType.shortTerm => Except.ok (shortTermNextDueDate now acct.monthlyDueDate)
  | CreditType.longTerm =>
    match insts.find? (fun i =>
        (i.status == InstallmentStatus.pending) &&
          decide (GoTime.After i.dueDate now)) with
    | some i => Except.ok i.dueDate
    | none => Except.ok (shortTermNextDueDate now acct.monthlyDueDate)

/-- Next occurrence of the monthly due day strictly after today, as claim
C8 states it: the due day of the current month when today precedes it,
otherwise the due day of the following month. -/
def specNextOccurrenceAfter (now : GoTime) (monthlyDueDate : Int) : GoTime :=
  let thisMonth : GoTime := ⟨now.Year, now.Month, monthlyDueDate, 0⟩
  if GoTime.After thisMonth now then thisMonth else thisMonth.AddDate 0 1 0

lemma daysFromCivil_thirteen (y d : Int) :
    daysFromCivil y 13 d = daysFromCivil (y + 1) 1 d := by
  have h1 : ((13:ℤ) - 1).fdiv 12 = 1 := by decide
  have h2 : ((13:ℤ) - 1).fmod 12 = 0 := by decide
  have h3 : ((1:ℤ) - 1).fdiv 12 = 0 := by decide
  have h4 : ((1:ℤ) - 1).fmod 12 = 0 := by decide
  simp only [daysFromCivil, h1, h2, h3, h4]
  norm_num

/-- C8 (amended). For every SHORT_TERM account, CalculateDueDate returns
the monthlyDueDate day of the account in the month immediately after the
current one (the December case rolling into January of the next year is
exactly calendar normalisation of month+1), regardless of whether today
precedes the due day of the current month. -/
theorem calc_due_date_always_next_month (now : GoTime) (acct : CreditAccount)
    (insts : List Installment) (hct : acct.creditType = CreditType.shortTerm)
    (hm1 : 1 ≤ now.Month) (hm2 : now.Month ≤ 12) :
    calculateDueDate now acct insts =
        Except.ok (shortTermNextDueDate now acct.monthlyDueDate) ∧
      (shortTermNextDueDate now acct.monthlyDueDate).abs =
        GoTime.abs ⟨now.Year, now.Month + 1, acct.monthlyDueDate, 0⟩ := by
  refine ⟨by simp [calculateDueDate, hct], ?_⟩
  by_cases h12 : now.Month = 12
  · rw [shortTermNextDueDate]
    rw [if_pos (by omega)]
    simp only [GoTime.abs, h12]
    rw [show (12:ℤ) + 1 = 13 by norm_num, daysFromCivil_thirteen]
  · rw [shortTermNextDueDate]
    rw [if_neg (by omega)]

/-- Witness for the amended C8: called on December 20, 2024 (a 31-day
month, after the due day 15), the result is January 15, 2025 — the due
day of the following month. -/
theorem calc_due_date_always_next_month_witness :
    (calculateDueDate ⟨2024, 12, 20, 0⟩ freshAccount [] =
        Except.ok (shortTermNextDueDate ⟨2024, 12, 20, 0⟩ freshAccount.monthlyDueDate) ∧
      (shortTermNextDueDate ⟨2024, 12, 20, 0⟩ freshAccount.monthlyDueDate).abs =
        GoTime.abs ⟨GoTime.Year ⟨2024, 12, 20, 0⟩,
          GoTime.Month ⟨2024, 12, 20, 0⟩ + 1, freshAccount.monthlyDueDate, 0⟩) :=
  calc_due_date_always_next_month ⟨2024, 12, 20, 0⟩ freshAccount [] rfl
    (by decide) (by decide)

/-- Counterexample to C8 as stated: on May 5, 2024 (today precedes the due
day 15), the code returns June 15, 2024 rather than the next occurrence
of day 15 strictly after today, which is May 15, 2024. -/
theorem calc_due_date_skips_current_month_counterexample :
    calculateDueDate ⟨2024, 5, 5, 0⟩ freshAccount [] =
        Except.ok ⟨2024, 6, 15, 0⟩ ∧
      specNextOccurrenceAfter ⟨2024, 5, 5, 0⟩ 15 = ⟨2024, 5, 15, 0⟩ ∧
      GoTime.abs ⟨2024, 6, 15, 0⟩ ≠ GoTime.abs ⟨2024, 5, 15, 0⟩ := by
  have hY : GoTime.Year ⟨2024, 5, 5, 0⟩ = 2024 := by decide
  have hM : GoTime.Month ⟨2024, 5, 5, 0⟩ = 5 := by decide
  refine ⟨?_, ?_, ?_⟩
  · have hcs : freshAccount.creditType = CreditType.shortTerm := rfl
    have hdd : freshAccount.monthlyDueDate = 15 := rfl
    simp only [calculateDueDate, hcs, shortTermNextDueDate, hY, hM, hdd]
    norm_num
  · have hafter : GoTime.After ⟨2024, 5, 15, 0⟩ ⟨2024, 5, 5, 0⟩ := by
      show GoTime.abs ⟨2024, 5, 5, 0⟩ < GoTime.abs ⟨2024, 5, 15, 0⟩
      simp only [GoTime.abs]
      have hd : daysFromCivil 2024 5 5 < daysFromCivil 2024 5 15 := by decide
      norm_num
      exact_mod_cast hd
    simp only [specNextOccurrenceAfter, hY, hM]
    rw [if_pos hafter]
  · simp only [GoTime.abs]
    have hd : daysFromCivil 2024 6 15 ≠ daysFromCivil 2024 5 15 := by decide
    norm_num
    exact_mod_cast hd

/-- String stored in the transaction_type column.  PURCHASE and PAYMENT
are the declared enum values; the interest and late-fee values are not
declared under src and are modelled by their obvious upper-case names. -/
def transactionTypeColumn : TransactionType → String
  | TransactionType.purchase => "PURCHASE"
  | TransactionType.payment => "PAYMENT"
  | TransactionType.interestAccrual => "INTEREST_ACCRUAL"
  | TransactionType.lateFeeApplied => "LATE_FEE"

/-- transactionRepository.GetBalanceBeforeDate
(internal/repository/transaction_repository.go lines 162-174):
SUM of amount when the transaction_type column equals the string
literal Payment, else of -amount, over the transactions of the account
created strictly before the date.  On Postgres the comparison is
case-sensitive, so the literal Payment (mixed case) matches no stored
value.  The SQL SUM over no rows is modelled
as 0. -/
def getBalanceBeforeDate (txns : List Transaction) (beforeDate : GoTime) : ℚ :=
  ((txns.filter fun t => decide (t.transactionDate.abs < beforeDate.abs)).map
    fun t =>
      if transactionTypeColumn t.transactionType = "Payment" then t.amount
      else -t.amount).sum

/-- Starting balance of GetClientAccountStatement
(internal/service/purchase_service.go lines 358-365): 0 for the zero
start date, otherwise GetBalanceBeforeDate. -/
def statementStartingBalance (txns : List Transaction) (startDate : GoTime) : ℚ :=
  if startDate.IsZero then 0 else getBalanceBeforeDate txns startDate

/-- Signed sum stated by claim C6 over the transactions strictly before
the date: purchase, fee and interest amounts positive, payment amounts
negative. -/
def specStartingBalance (txns : List Transaction) (fromDate : GoTime) : ℚ :=
  let prior := txns.filter fun t => decide (t.transactionDate.abs < fromDate.abs)
  chargeSum prior - paymentSum prior

/-- Purchase transaction of 100 posted before the statement start. -/
def purchase100 : Transaction :=
  { creditAccountID := 42
    recipientType := RecipientType.rolClient
    recipientID := 7
    transactionType := TransactionType.purchase
    amount := 100
    description := "prior purchase"
    transactionDate := ⟨2024, 1, 5, 0⟩ }

/-- Statement start date after the purchase above. -/
def tFrom : GoTime := ⟨2024, 1, 10, 0⟩

/-- C6 evaluated at the failing input: with one prior PURCHASE of 100 the
code computes starting balance -100 while the claim requires +100 (the
CASE expression counts payments positive and everything else negative);
the zero-transaction and zero-start-date cases do return 0. -/
theorem starting_balance_sign_flipped :
    statementStartingBalance [purchase100] tFrom = -100 ∧
      specStartingBalance [purchase100] tFrom = 100 ∧
      statementStartingBalance [] tFrom = 0 ∧
      statementStartingBalance [purchase100] ⟨1, 1, 1, 0⟩ = 0 := by
  have hlt : GoTime.abs ⟨2024, 1, 5, 0⟩ < GoTime.abs tFrom := by
    simp only [GoTime.abs, tFrom]
    have hd : daysFromCivil 2024 1 5 < daysFromCivil 2024 1 10 := by decide
    norm_num
    exact_mod_cast hd
  have hnz : GoTime.IsZero tFrom = false := by
    simp only [GoTime.IsZero, GoTime.abs, tFrom, beq_eq_false_iff_ne, ne_eq]
    have hd : daysFromCivil 2024 1 10 ≠ 0 := by decide
    norm_num
    exact_mod_cast hd
  have hz : GoTime.IsZero ⟨1, 1, 1, 0⟩ = true := by
    simp only [GoTime.IsZero, GoTime.abs, beq_iff_eq]
    have hd : daysFromCivil 1 1 1 = 0 := by decide
    norm_num
    exact_mod_cast hd
  refine ⟨?_, ?_, ?_, ?_⟩
  · norm_num [statementStartingBalance, hnz, getBalanceBeforeDate,
      purchase100, transactionTypeColumn, hlt]
    decide
  · have hb : (TransactionType.purchase == TransactionType.payment) = false := by
      decide
    norm_num [specStartingBalance, purchase100, hlt, chargeSum, paymentSum,
      isCharge, hb]
  · simp [statementStartingBalance, hnz, getBalanceBeforeDate]
  · simp [statementStartingBalance, hz]

/-- request.UpdateCreditAccountRequest (src/unnamed/part_008): the Go zero
values stand for omitted JSON fields; the empty interest/credit type
strings are modelled by none. -/
structure UpdateCreditAccountRequest where
  creditLimit : ℚ
  monthlyDueDate : Int
  interestRate : ℚ
  interestType : Option InterestType
  creditType : Option CreditType
  gracePeriod : Int
  isBlocked : Bool
  lateFeePercentage : ℚ
deriving DecidableEq, Repr

/-- Field-update logic of creditAccountService.UpdateCreditAccount
(internal/service/credit_account_service.go lines 105-141, identical in
UpdateCreditAccountByClientID lines 367-406): each guarded field reads
only the request, so the sequential Go if-chain equals this parallel
form; IsBlocked is assigned unconditionally. -/
def updateCreditAccountFields (acct : CreditAccount)
    (req : UpdateCreditAccountRequest) : CreditAccount :=
  { acct with
      creditLimit :=
        if 0 < req.creditLimit then req.creditLimit else acct.creditLimit
      monthlyDueDate :=
        if 0 < req.monthlyDueDate then req.monthlyDueDate else acct.monthlyDueDate
      interestRate :=
        if 0 < req.interestRate then req.interestRate else acct.interestRate
      interestType :=
        match req.interestType with
        | some it => it
        | none => acct.interestType
      creditType :=
        match req.creditType with
        | some ct => ct
        | none => acct.creditType
      gracePeriod :=
        if 0 ≤ req.gracePeriod then req.gracePeriod else acct.gracePeriod
      isBlocked := req.isBlocked
      lateFeePercentage :=
        if 0 ≤ req.lateFeePercentage then req.lateFeePercentage
        else acct.lateFeePercentage }

/-- C10 (amended). UpdateCreditAccount overwrites IsBlocked with the
request value unconditionally, regardless of the balance; CreditLimit,
MonthlyDueDate and InterestRate change only for positive request values
and InterestType/CreditType only for non-empty ones; but GracePeriod and
LateFeePercentage are overwritten by every request value ≥ 0 — including
the zero default of a partial update.  The balance is never touched. -/
theorem update_credit_account_field_rules (acct : CreditAccount)
    (req : UpdateCreditAccountRequest) :
    (updateCreditAccountFields acct req).isBlocked = req.isBlocked ∧
      (0 ≤ req.gracePeriod →
        (updateCreditAccountFields acct req).gracePeriod = req.gracePeriod) ∧
      (0 ≤ req.lateFeePercentage →
        (updateCreditAccountFields acct req).lateFeePercentage = req.lateFeePercentage) ∧
      (0 < req.creditLimit →
        (updateCreditAccountFields acct req).creditLimit = req.creditLimit) ∧
      (req.creditLimit ≤ 0 →
        (updateCreditAccountFields acct req).creditLimit = acct.creditLimit) ∧
      (0 < req.monthlyDueDate →
        (updateCreditAccountFields acct req).monthlyDueDate = req.monthlyDueDate) ∧
      (req.monthlyDueDate ≤ 0 →
        (updateCreditAccountFields acct req).monthlyDueDate = acct.monthlyDueDate) ∧
      (0 < req.interestRate →
        (updateCreditAccountFields acct req).interestRate = req.interestRate) ∧
      (req.interestRate ≤ 0 →
        (updateCreditAccountFields acct req).interestRate = acct.interestRate) ∧
      (req.interestType = none →
        (updateCreditAccountFields acct req).interestType = acct.interestType) ∧
      (req.creditType = none →
        (updateCreditAccountFields acct req).creditType = acct.creditType) ∧
      (updateCreditAccountFields acct req).currentBalance = acct.currentBalance := by
  refine ⟨rfl, fun h => ?_, fun h => ?_, fun h => ?_, fun h => ?_, fun h => ?_,
    fun h => ?_, fun h => ?_, fun h => ?_, fun h => ?_, fun h => ?_, rfl⟩
  · simp only [updateCreditAccountFields]
    rw [if_pos h]
  · simp only [updateCreditAccountFields]
    rw [if_pos h]
  · simp only [updateCreditAccountFields]
    rw [if_pos h]
  · simp only [updateCreditAccountFields]
    rw [if_neg (by linarith)]
  · simp only [updateCreditAccountFields]
    rw [if_pos h]
  · simp only [updateCreditAccountFields]
    rw [if_neg (by omega)]
  · simp only [updateCreditAccountFields]
    rw [if_pos h]
  · simp only [updateCreditAccountFields]
    rw [if_neg (by linarith)]
  · simp only [updateCreditAccountFields]
    rw [h]
  · simp only [updateCreditAccountFields]
    rw [h]

/-- Blocked account with a positive balance and a 3-month grace period. -/
def acctC10 : CreditAccount :=
  { freshAccount with
      id := 47
      currentBalance := 500
      isBlocked := true
      gracePeriod := 3 }

/-- Request with every field at its Go zero value: a partial update that
supplies nothing. -/
def emptyUpdateRequest : UpdateCreditAccountRequest :=
  { creditLimit := 0
    monthlyDueDate := 0
    interestRate := 0
    interestType := none
    creditType := none
    gracePeriod := 0
    isBlocked := false
    lateFeePercentage := 0 }

/-- Witness for the amended C10 at the blocked account and the empty
request. -/
theorem update_credit_account_field_rules_witness :
    (updateCreditAccountFields acctC10 emptyUpdateRequest).isBlocked =
        emptyUpdateRequest.isBlocked ∧
      (0 ≤ emptyUpdateRequest.gracePeriod →
        (updateCreditAccountFields acctC10 emptyUpdateRequest).gracePeriod =
          emptyUpdateRequest.gracePeriod) ∧
      (0 ≤ emptyUpdateRequest.lateFeePercentage →
        (updateCreditAccountFields acctC10 emptyUpdateRequest).lateFeePercentage =
          emptyUpdateRequest.lateFeePercentage) ∧
      (0 < emptyUpdateRequest.creditLimit →
        (updateCreditAccountFields acctC10 emptyUpdateRequest).creditLimit =
          emptyUpdateRequest.creditLimit) ∧
      (emptyUpdateRequest.creditLimit ≤ 0 →
        (updateCreditAccountFields acctC10 emptyUpdateRequest).creditLimit =
          acctC10.creditLimit) ∧
      (0 < emptyUpdateRequest.monthlyDueDate →
        (updateCreditAccountFields acctC10 emptyUpdateRequest).monthlyDueDate =
          emptyUpdateRequest.monthlyDueDate) ∧
      (emptyUpdateRequest.monthlyDueDate ≤ 0 →
        (updateCreditAccountFields acctC10 emptyUpdateRequest).monthlyDueDate =
          acctC10.monthlyDueDate) ∧
      (0 < emptyUpdateRequest.interestRate →
        (updateCreditAccountFields acctC10 emptyUpdateRequest).interestRate =
          emptyUpdateRequest.interestRate) ∧
      (emptyUpdateRequest.interestRate ≤ 0 →
        (updateCreditAccountFields acctC10 emptyUpdateRequest).interestRate =
          acctC10.interestRate) ∧
      (emptyUpdateRequest.interestType = none →
        (updateCreditAccountFields acctC10 emptyUpdateRequest).interestType =
          acctC10.interestType) ∧
      (emptyUpdateRequest.creditType = none →
        (updateCreditAccountFields acctC10 emptyUpdateRequest).creditType =
          acctC10.creditType) ∧
      (updateCreditAccountFields acctC10 emptyUpdateRequest).currentBalance =
        acctC10.currentBalance :=
  update_credit_account_field_rules acctC10 emptyUpdateRequest

/-- Counterexample to C10 as stated: the empty request supplies a zero
GracePeriod, yet the update changes GracePeriod from 3 to 0 — not every
other field is left unchanged on a zero-valued request (the blocked
account with positive balance is indeed unblocked, as the claim says). -/
theorem update_overwrites_grace_period_counterexample :
    emptyUpdateRequest.gracePeriod = 0 ∧
      acctC10.gracePeriod = 3 ∧
      (updateCreditAccountFields acctC10 emptyUpdateRequest).gracePeriod = 0 ∧
      (updateCreditAccountFields acctC10 emptyUpdateRequest).isBlocked = false ∧
      acctC10.isBlocked = true ∧
      0 < acctC10.currentBalance := by
  refine ⟨rfl, rfl, ?_, rfl, rfl, by norm_num [acctC10, freshAccount]⟩
  simp [updateCreditAccountFields, emptyUpdateRequest]

/-- Success/failure of the individual writes attempted inside one atomic
unit; the gorm callback aborts (and the transaction rolls back) at the
first failing write. -/
structure WriteEnv where
  txnInsertOk : Bool
  accountSaveOk : Bool
  installmentInsertOk : Nat → Bool
  clientConvertOk : Bool

/-- Environment in which every write succeeds. -/
def allWritesOk : WriteEnv :=
  { txnInsertOk := true
    accountSaveOk := true
    installmentInsertOk := fun _ => true
    clientConvertOk := true }

/-- Purchase transaction literal of src/unnamed/part_019 lines 80-86 (the
recipient fields are left at their zero values there). -/
def purchaseTxn_p19 (now : GoTime) (acct : CreditAccount) (amount : ℚ) :
    Transaction :=
  { creditAccountID := acct.id
    recipientType := RecipientType.unspecified
    recipientID := 0
    transactionType := TransactionType.purchase
    amount := amount
    description := "Product Purchase"
    transactionDate := now }

/-- Per-installment inserts of the part_019 createInstallments loop
(src/unnamed/part_019 lines 179-189), inside the enclosing gorm
transaction: abort at the first failing insert. -/
def insertInstallmentsTx (ok : Nat → Bool) :
    Nat → List Installment → DBState → Except EngineError DBState
  | _, [], st => Except.ok st
  | k, i :: rest, st =>
    if ok k then
      insertInstallmentsTx ok (k + 1) rest
        { st with installments := st.installments ++ [i] }
    else Except.error (EngineError.stepFailed "installment insert")

/-- Final state of a successful long-term part_019 purchase: balance
increased, PURCHASE transaction appended, installment batch appended. -/
def p19SuccessState (fpow : ℚ → ℚ → ℚ) (now : GoTime) (amount : ℚ)
    (st : DBState) : DBState :=
  { st with
      transactions := st.transactions ++ [purchaseTxn_p19 now st.account amount]
      account := { st.account with
        currentBalance := st.account.currentBalance + amount }
      installments := st.installments ++
        createInstallments_p19 fpow now
          { st.account with
            currentBalance := st.account.currentBalance + amount } amount }

/-- Body of the gorm transaction of purchaseService.ProcessPurchase
(src/unnamed/part_019 lines 78-110): insert the PURCHASE transaction,
save the increased balance, create the installments for long-term credit
and convert the user to a client, aborting at the first failing write. -/
def purchaseTxBody_p19 (env : WriteEnv) (fpow : ℚ → ℚ → ℚ) (now : GoTime)
    (creditType : CreditType) (amount : ℚ) (st : DBState) :
    Except EngineError DBState :=
  if env.txnInsertOk then
    if env.accountSaveOk then
      let st2 : DBState :=
        { st with
            transactions :=
              st.transactions ++ [purchaseTxn_p19 now st.account amount]
            account := { st.account with
              currentBalance := st.account.currentBalance + amount } }
      let afterInstallments :=
        match creditType with
        | CreditType.longTerm =>
          insertInstallmentsTx env.installmentInsertOk 0
            (createInstallments_p19 fpow now
              { st.account with
                currentBalance := st.account.currentBalance + amount } amount)
            st2
        | CreditType.shortTerm => Except.ok st2
      afterInstallments.bind fun st3 =>
        if env.clientConvertOk then Except.ok st3
        else Except.error (EngineError.stepFailed "client conversion")
    else Except.error (EngineError.stepFailed "account save")
  else Except.error (EngineError.stepFailed "transaction insert")

/-- purchaseService.ProcessPurchase of src/unnamed/part_019 lines 48-111:
input validation, the overdue-balance check, the credit-limit check, and
then the atomic unit above (the account is taken to exist in st; the
credit-type validity check is vacuous over the two-constructor type). -/
def processPurchase_p19 (env : WriteEnv) (fpow : ℚ → ℚ → ℚ) (now : GoTime)
    (userID establishmentID : Nat) (productIDs : List Nat)
    (creditType : CreditType) (amount : ℚ) (st : DBState) :
    DBState × Option EngineError :=
  if userID = 0 ∨ establishmentID = 0 ∨ productIDs = [] ∨ amount ≤ 0 then
    (st, some EngineError.invalidInput)
  else if 0 < getOverdueBalance now st then
    (st, some EngineError.overdueBalanceBlocksPurchase)
  else if st.account.creditLimit < st.account.currentBalance + amount then
    (st, some EngineError.creditLimitExceeded)
  else gormRun (purchaseTxBody_p19 env fpow now creditType amount) st

lemma insertInstallmentsTx_all_or_nothing (ok : Nat → Bool) :
    ∀ (l : List Installment) (k : Nat) (st : DBState),
      insertInstallmentsTx ok k l st =
          Except.ok { st with installments := st.installments ++ l } ∨
        ∃ e, insertInstallmentsTx ok k l st = Except.error e := by
  intro l
  induction l with
  | nil =>
    intro k st
    left
    simp [insertInstallmentsTx]
  | cons i rest ih =>
    intro k st
    by_cases hk : ok k
    · rcases ih (k + 1) { st with installments := st.installments ++ [i] }
        with h | ⟨e, h⟩
      · left
        simp only [insertInstallmentsTx, hk, if_true, h]
        simp [List.append_assoc]
      · right
        exact ⟨e, by simp only [insertInstallmentsTx, hk, if_true, h]⟩
    · right
      exact ⟨EngineError.stepFailed "installment insert",
        by simp [insertInstallmentsTx, hk]⟩

lemma purchaseTxBody_p19_all_or_nothing (env : WriteEnv) (fpow : ℚ → ℚ → ℚ)
    (now : GoTime) (amount : ℚ) (st : DBState) :
    purchaseTxBody_p19 env fpow now CreditType.longTerm amount st =
        Except.ok (p19SuccessState fpow now amount st) ∨
      ∃ e, purchaseTxBody_p19 env fpow now CreditType.longTerm amount st =
        Except.error e := by
  by_cases h1 : env.txnInsertOk
  · by_cases h2 : env.accountSaveOk
    · simp only [purchaseTxBody_p19, h1, h2, if_true]
      rcases insertInstallmentsTx_all_or_nothing env.installmentInsertOk
          (createInstallments_p19 fpow now
            { st.account with
              currentBalance := st.account.currentBalance + amount } amount)
          0
          { st with
              transactions :=
                st.transactions ++ [purchaseTxn_p19 now st.account amount]
              account := { st.account with
                currentBalance := st.account.currentBalance + amount } }
          with hins | ⟨e, hins⟩
      · rw [hins]
        by_cases h3 : env.clientConvertOk
        · left
          simp only [Except.bind, h3, if_true]
          rfl
        · right
          refine ⟨EngineError.stepFailed "client conversion", ?_⟩
          have hb3 : env.clientConvertOk = false := by simpa using h3
          simp only [Except.bind, hb3, Bool.false_eq_true, if_false]
      · right
        rw [hins]
        exact ⟨e, rfl⟩
    · right
      have hb2 : env.accountSaveOk = false := by simpa using h2
      exact ⟨EngineError.stepFailed "account save",
        by simp [purchaseTxBody_p19, h1, hb2]⟩
  · right
    have hb1 : env.txnInsertOk = false := by simpa using h1
    exact ⟨EngineError.stepFailed "transaction insert",
      by simp [purchaseTxBody_p19, hb1]⟩

/-- C2 (amended to the part_019 implementation).  For every LONG_TERM
purchase, whatever subset of the writes fails: either the call reports no
error and exactly the three changes are applied — balance increased,
PURCHASE transaction appended, installment batch appended — or the call
reports an error and the state is exactly as before (full rollback). -/
theorem p19_purchase_atomic (env : WriteEnv) (fpow : ℚ → ℚ → ℚ)
    (now : GoTime) (userID establishmentID : Nat) (productIDs : List Nat)
    (creditType : CreditType) (amount : ℚ) (st : DBState)
    (hct : creditType = CreditType.longTerm) :
    ((processPurchase_p19 env fpow now userID establishmentID productIDs
          creditType amount st).2 = none →
        processPurchase_p19 env fpow now userID establishmentID productIDs
            creditType amount st =
          (p19SuccessState fpow now amount st, none)) ∧
      ((processPurchase_p19 env fpow now userID establishmentID productIDs
          creditType amount st).2 ≠ none →
        (processPurchase_p19 env fpow now userID establishmentID productIDs
          creditType amount st).1 = st) := by
  subst hct
  simp only [processPurchase_p19]
  split
  · exact ⟨fun h => absurd h (by simp), fun _ => rfl⟩
  · split
    · exact ⟨fun h => absurd h (by simp), fun _ => rfl⟩
    · split
      · exact ⟨fun h => absurd h (by simp), fun _ => rfl⟩
      · rcases purchaseTxBody_p19_all_or_nothing env fpow now amount st
          with hb | ⟨e, hb⟩
        · constructor
          · intro _
            simp only [gormRun, hb]
          · intro hne
            exfalso
            apply hne
            simp only [gormRun, hb]
        · constructor
          · intro hok
            exfalso
            simp only [gormRun, hb] at hok
            exact Option.noConfusion hok
          · intro _
            simp only [gormRun, hb]

/-- Long-term database state used by the concrete purchase runs. -/
def stLT : DBState :=
  { account := acctG2
    transactions := []
    installments := []
    history := [] }

/-- Witness for the amended C2: the all-writes-succeed run at a concrete
long-term purchase. -/
theorem p19_purchase_atomic_witness :
    ((processPurchase_p19 allWritesOk fpowZero tNow 7 3 [1]
          CreditType.longTerm 100 stLT).2 = none →
        processPurchase_p19 allWritesOk fpowZero tNow 7 3 [1]
            CreditType.longTerm 100 stLT =
          (p19SuccessState fpowZero tNow 100 stLT, none)) ∧
      ((processPurchase_p19 allWritesOk fpowZero tNow 7 3 [1]
          CreditType.longTerm 100 stLT).2 ≠ none →
        (processPurchase_p19 allWritesOk fpowZero tNow 7 3 [1]
          CreditType.longTerm 100 stLT).1 = stLT) :=
  p19_purchase_atomic allWritesOk fpowZero tNow 7 3 [1]
    CreditType.longTerm 100 stLT rfl

/-- Modelled from the spec: ProcessPurchaseTransaction is called at
internal/service/purchase_service.go line 87 but has no definition under
src; per §4.1 it creates the PURCHASE transaction and increments the
balance within one atomic unit, modelled with a single success flag. -/
def processPurchaseTransactionSpec (unitOk : Bool) (now : GoTime)
    (amount : ℚ) (description : String) (st : DBState) :
    DBState × Option EngineError :=
  if unitOk then
    ({ st with
        transactions := st.transactions ++
          [{ creditAccountID := st.account.id
             recipientType := RecipientType.rolClient
             recipientID := st.account.clientID
             transactionType := TransactionType.purchase
             amount := amount
             description := description
             transactionDate := now }]
        account := { st.account with
          currentBalance := st.account.currentBalance + amount } }, none)
  else (st, some (EngineError.stepFailed "purchase transaction"))

/-- purchaseService.ProcessPurchase of
internal/service/purchase_service.go lines 50-93: validation, blocked and
limit checks, then — for LONG_TERM credit — the installment batch
committed through installmentRepo.CreateInstallments in its own gorm
transaction (src/unnamed/part_028 lines 31-33), and only afterwards the
purchase transaction unit. -/
def processPurchase_svc (batchOk unitOk : Bool) (now : GoTime)
    (userID establishmentID : Nat) (productIDs : List Nat)
    (creditType : CreditType) (amount : ℚ) (st : DBState) :
    DBState × Option EngineError :=
  if userID = 0 ∨ establishmentID = 0 ∨ productIDs = [] ∨ amount ≤ 0 then
    (st, some EngineError.invalidInput)
  else if st.account.isBlocked then (st, some EngineError.accountBlocked)
  else if st.account.creditLimit < st.account.currentBalance + amount then
    (st, some EngineError.creditLimitExceeded)
  else
    let afterBatch : Except EngineError DBState :=
      if creditType = CreditType.longTerm then
        if batchOk then
          Except.ok { st with installments :=
            st.installments ++ svcCreateInstallments now st.account amount }
        else Except.error (EngineError.stepFailed "installment batch insert")
      else Except.ok st
    match afterBatch with
    | Except.ok st1 =>
      processPurchaseTransactionSpec unitOk now amount "Product Purchase" st1
    | Except.error e => (st, some e)

/-- Counterexample to C2 as stated: in the purchase-service flow a failed
purchase-transaction unit reports an error, yet the installment batch —
committed earlier in its own transaction — persists: the state is not the
state before the call. -/
theorem svc_purchase_not_atomic_counterexample :
    (processPurchase_svc true false tNow 7 3 [1] CreditType.longTerm 100
          stLT).2 = some (EngineError.stepFailed "purchase transaction") ∧
      (processPurchase_svc true false tNow 7 3 [1] CreditType.longTerm 100
          stLT).1.installments = svcCreateInstallments tNow acctG2 100 ∧
      svcCreateInstallments tNow acctG2 100 ≠ [] ∧
      stLT.installments = [] := by
  have hg1 : ¬((7:ℕ) = 0 ∨ (3:ℕ) = 0 ∨ ([1] : List ℕ) = [] ∨ (100:ℚ) ≤ 0) := by
    norm_num
  have hg2 : ¬ stLT.account.isBlocked = true := by
    intro h
    exact Bool.noConfusion h
  have hg3 : ¬ stLT.account.creditLimit < stLT.account.currentBalance + 100 := by
    norm_num [stLT, acctG2, freshAccount]
  have hres : processPurchase_svc true false tNow 7 3 [1]
      CreditType.longTerm 100 stLT =
      ({ stLT with installments :=
          stLT.installments ++ svcCreateInstallments tNow stLT.account 100 },
        some (EngineError.stepFailed "purchase transaction")) := by
    simp only [processPurchase_svc]
    rw [if_neg hg1, if_neg hg2, if_neg hg3]
    simp only [if_pos rfl, processPurchaseTransactionSpec, Bool.false_eq_true,
      if_false]
    simp
  have hlen := svcCreateInstallments_length tNow acctG2 100 rfl
  refine ⟨?_, ?_, ?_, rfl⟩
  · rw [hres]
  · rw [hres]
    show stLT.installments ++ svcCreateInstallments tNow stLT.account 100 =
      svcCreateInstallments tNow acctG2 100
    simp [stLT]
  · intro h
    rw [h] at hlen
    simp at hlen

end ApiRest
